import Mathlib

/-!
Shallow embedding of the cruise-booking assistant's tool layer:
the tracing configuration, the data-retrieval and semantic-search tool
wrappers, the constraint record validation, and the two code-based
evaluation functions. Definitions are translated from the repository's
Python source; external engines (the SQL engine, the vector database
client, the embedding model) appear as function parameters so that the
theorems hold for every backend behaviour.
-/

namespace CruiseBooking

/-- A Python value, as far as the embedded code inspects one. -/
inductive PyVal where
  | pynone : PyVal
  | pybool (b : Bool) : PyVal
  | pyint (n : Int) : PyVal
  | pyfloat (q : Rat) : PyVal
  | pystr (s : String) : PyVal
  | pylist (l : List PyVal) : PyVal
deriving Repr

/-- Python truthiness of a value (`if v:`). -/
def PyVal.truthy : PyVal → Bool
  | .pynone => false
  | .pybool b => b
  | .pyint n => n ≠ 0
  | .pyfloat q => q ≠ 0
  | .pystr s => s ≠ ""
  | .pylist l => ¬ l.isEmpty

/-- Python `str(v)` rendering, used by the evaluation functions. -/
def PyVal.render : PyVal → String
  | .pynone => "None"
  | .pybool b => if b then "True" else "False"
  | .pyint n => toString n
  | .pyfloat q => toString q
  | .pystr s => s
  | .pylist _ => "[...]"

/-- A Python dict with string keys, as an association list (first binding wins,
as a dict has no duplicate keys). -/
abbrev PyDict := List (String × PyVal)

/-- Whitespace as Python's `str.strip` removes it. -/
def isSpaceChar (c : Char) : Bool :=
  c = ' ' || c = '\t' || c = '\n' || c = '\r' || c = '\x0b' || c = '\x0c'

/-- Python `s.strip()`: drop leading and trailing whitespace. -/
def pyStrip (s : String) : String :=
  String.mk (((s.data.dropWhile isSpaceChar).reverse.dropWhile
    isSpaceChar).reverse)

/-- The splitting loop behind Python `s.split(',')`. -/
def splitCommaAux : List Char → List Char → List String
  | [], acc => [String.mk acc.reverse]
  | c :: rest, acc =>
    if c = ',' then String.mk acc.reverse :: splitCommaAux rest []
    else splitCommaAux rest (c :: acc)

/-- Python `s.split(',')`: split on every comma (an empty string gives one
empty piece, as in Python). -/
def pySplitComma (s : String) : List String :=
  splitCommaAux s.data []

/-- Whether `pat` occurs as a contiguous run in `l`. -/
def containsSub : List Char → List Char → Bool
  | [], pat => pat.isEmpty
  | l@(_ :: rest), pat => pat.isPrefixOf l || containsSub rest pat

/-- Python `pat in s` on strings: substring containment. -/
def strContains (s pat : String) : Bool :=
  containsSub s.data pat.data

/-! ## Tracing configuration (config.py / phoenix_tracer.py) -/

/-- A tracer as the tool modules use one: four decorator methods. -/
structure Tracer where
  tool : (PyVal → PyVal) → (PyVal → PyVal)
  chain : (PyVal → PyVal) → (PyVal → PyVal)
  agent : (PyVal → PyVal) → (PyVal → PyVal)
  llm : (PyVal → PyVal) → (PyVal → PyVal)

/-- `NoOpTracer` from config.py and phoenix_tracer.py: every decorator
returns its argument unchanged. -/
def NoOpTracer : Tracer := ⟨id, id, id, id⟩

/-- `'localhost' in endpoint or '127.0.0.1' in endpoint` from config.py. -/
def is_local_phoenix (endpoint : String) : Bool :=
  strContains endpoint "localhost" || strContains endpoint "127.0.0.1"

/-- `PHOENIX_ENABLED = is_local_phoenix or bool(PHOENIX_API_KEY)` from config.py. -/
def PHOENIX_ENABLED (endpoint : String) (api_key : Option String) : Bool :=
  is_local_phoenix endpoint || api_key.isSome

/-- Tracer selection from config.py: when Phoenix is enabled the module tries to
initialize a real tracer (`phoenix_init` is the result, `none` when
initialization raised); otherwise, and on failure, the no-op tracer is used. -/
def config_tracer (enabled : Bool) (phoenix_init : Option Tracer) : Tracer :=
  if enabled then
    match phoenix_init with
    | some t => t
    | none => NoOpTracer
  else
    NoOpTracer

/-! ## Data search tool wrappers (data_search_tools.py)

`DataSearch` itself is an external engine from the tool layer's point of
view; the wrappers are embedded over an abstract backend function. -/

/-- A cruise record as returned by the data backend: a Python dict. -/
abbrev Cruise := PyDict

/-- `search_cruises` from data_search_tools.py: forwards the raw SQL string to
`DataSearch.execute_sql_query` and returns its rows unchanged. -/
def search_cruises (execute_sql_query : String → List Cruise)
    (sql_query : String) : List Cruise :=
  execute_sql_query sql_query

/-- The three shapes `get_cruise_by_id` can return: a list of cruises, a
single cruise dict, or Python `None`. -/
inductive CruiseResult where
  | listRes (cruises : List Cruise) : CruiseResult
  | singleRes (cruise : Cruise) : CruiseResult
  | noneRes : CruiseResult
deriving Repr

/-- The accumulation loop of `get_cruise_by_id`: look each id up and keep the
truthy results (`if cruise:` skips `None` and empty dicts). -/
def foundCruises (backend : String → Option Cruise) (ids : List String) :
    List Cruise :=
  ids.filterMap fun cid =>
    match backend cid with
    | some c => if c.isEmpty then none else some c
    | none => none

/-- The tail of `get_cruise_by_id` reached when `cruise_ids` is falsy: a
present `cruise_id` is looked up directly, otherwise the result is `None`. -/
def get_cruise_by_id_single (backend : String → Option Cruise)
    (cruise_id : Option String) : CruiseResult :=
  match cruise_id with
  | some cid =>
    match backend cid with
    | some c => .singleRes c
    | none => .noneRes
  | none => .noneRes

/-- `get_cruise_by_id` from data_search_tools.py. `cruise_ids` wins when it is
truthy (present and non-empty); otherwise a present `cruise_id` is looked up
directly; otherwise the result is `None`. -/
def get_cruise_by_id (backend : String → Option Cruise)
    (cruise_id : Option String) (cruise_ids : Option (List String)) :
    CruiseResult :=
  match cruise_ids with
  | some ids =>
    if ids.isEmpty then
      get_cruise_by_id_single backend cruise_id
    else
      .listRes (foundCruises backend ids)
  | none => get_cruise_by_id_single backend cruise_id

/-! ## Vector store and semantic search (vector_store.py / semantic_search.py)

The ChromaDB collection is external: its `query` call is a parameter that
either returns a result dictionary or raises (`Except.error`). Likewise the
sentence-embedding model's `encode` is a parameter. -/

/-- A Chroma `where` filter: a Python dict. -/
abbrev Filters := PyDict

/-- The result dictionary of a Chroma `collection.query` call: one inner list
per query text. A field holding `[]` is falsy, which is also how an absent
field reads through `results.get(...)`. -/
structure QueryResult where
  ids : List (List String)
  documents : List (List String)
  metadatas : List (List PyDict)
  distances : List (List Rat)
deriving Repr

/-- The empty result dictionary `VectorStore.search` builds when the backing
query raises. -/
def emptyQueryResult : QueryResult := ⟨[], [], [], []⟩

/-- The type of the external `collection.query` call. -/
abbrev CollectionQuery :=
  List String → Nat → Option Filters → Except String QueryResult

/-- `VectorStore.search` from vector_store.py: forward to `collection.query`;
on an exception, log and return the empty result dictionary. -/
def VectorStore.search (collection_query : CollectionQuery)
    (query_texts : List String) (n_results : Nat)
    (whereClause : Option Filters) : QueryResult :=
  match collection_query query_texts n_results whereClause with
  | .ok results => results
  | .error _ => emptyQueryResult

/-- One formatted row of a semantic search result. -/
structure SearchHit where
  id : String
  document : String
  metadata : PyDict
  distance : Rat
deriving Repr

/-- `results["field"][0][i] if results.get("field") else dflt`: a falsy (empty)
field yields the default; a truthy one is indexed, and an out-of-range index
is a raised exception (`none`). -/
def fieldAt {α : Type} (field : List (List α)) (i : Nat) (dflt : α) :
    Option α :=
  match field with
  | [] => some dflt
  | first :: _ => first.get? i

/-- The result-formatting loop of `SemanticSearch.search`: when `ids` is falsy
or empty the loop body never runs; otherwise row `i` is assembled from the
four fields, with the defaults of the source for falsy fields. `none` models
an IndexError raised inside the surrounding `try`. -/
def formatResults (results : QueryResult) : Option (List SearchHit) :=
  match results.ids with
  | [] => some []
  | first :: _ =>
    (List.range first.length).mapM fun i => do
      let hitId ← first.get? i
      let doc ← fieldAt results.documents i ""
      let md ← fieldAt results.metadatas i []
      let dist ← fieldAt results.distances i 0
      pure ⟨hitId, doc, md, dist⟩

/-- `filters if filters else None`: Chroma expects a valid `where` object or
`None`, never an empty dict, so a falsy filter dict becomes `None`. The same
expression appears in `SemanticSearch.search` (as `where_clause`) and in
`semantic_search_cruises` (as `normalized_filters`). -/
def whereClauseOf (filters : Option Filters) : Option Filters :=
  match filters with
  | some f => if f.isEmpty then none else some f
  | none => none

/-- `SemanticSearch.search` from semantic_search.py: inside a `try`, embed the
query, call `VectorStore.search` with `[query]` and the normalized `where`
clause, and format the rows; any exception (from the embedding step or from
formatting) is caught and the empty list returned. -/
def SemanticSearch.search (embed_text : String → Except String (List Rat))
    (collection_query : CollectionQuery) (query : String) (n_results : Nat)
    (filters : Option Filters) : List SearchHit :=
  match embed_text query with
  | .error _ => []
  | .ok _ =>
    let results :=
      VectorStore.search collection_query [query] n_results
        (whereClauseOf filters)
    match formatResults results with
    | some formatted => formatted
    | none => []

/-- `semantic_search_cruises` from semantic_search_tools.py: normalize a falsy
filter dict to `None` and delegate to `SemanticSearch.search`. -/
def semantic_search_cruises (embed_text : String → Except String (List Rat))
    (collection_query : CollectionQuery) (query : String) (n_results : Nat)
    (filters : Option Filters) : List SearchHit :=
  SemanticSearch.search embed_text collection_query query n_results
    (whereClauseOf filters)

/-! ## Constraint record (models/constraints.py)

`Constraints` is a pydantic model with nine fields, each `Optional` with
default `None`. Validation is per-field typing: a missing field defaults to
`None`, a supplied field must carry the declared type (`None` is accepted
everywhere; an `int` widens to a `float` field). -/

/-- The `Constraints` record after validation. -/
structure Constraints where
  departure_port : Option String
  date_range : Option String
  duration : Option Int
  budget : Option Rat
  cabin_type : Option String
  traveler_type : Option String
  destination : Option String
  amenities : Option (List String)
  atmosphere : Option String
deriving Repr, DecidableEq

/-- Validate a value against `Optional[str]`. -/
def asOptStr : PyVal → Option (Option String)
  | .pynone => some none
  | .pystr s => some (some s)
  | _ => none

/-- Validate a value against `Optional[int]`. -/
def asOptInt : PyVal → Option (Option Int)
  | .pynone => some none
  | .pyint n => some (some n)
  | _ => none

/-- Validate a value against `Optional[float]` (an int widens to a float). -/
def asOptFloat : PyVal → Option (Option Rat)
  | .pynone => some none
  | .pyfloat q => some (some q)
  | .pyint n => some (some (n : Rat))
  | _ => none

/-- Validate a value against `Optional[List[str]]`. -/
def asOptStrList : PyVal → Option (Option (List String))
  | .pynone => some none
  | .pylist l =>
    match l.mapM (fun v => match v with | .pystr s => some s | _ => none) with
    | some strs => some (some strs)
    | none => none
  | _ => none

/-- Read a field from the input dict; a missing field defaults to `None`. -/
def getField (input : PyDict) (key : String) : PyVal :=
  match input.lookup key with
  | some v => v
  | none => .pynone

/-- The nine field names of the `Constraints` model. -/
def constraintFieldNames : List String :=
  ["departure_port", "date_range", "duration", "budget", "cabin_type",
   "traveler_type", "destination", "amenities", "atmosphere"]

/-- Whether a supplied value is well-typed for the named `Constraints` field. -/
def constraintFieldOk (key : String) (v : PyVal) : Bool :=
  if key = "duration" then (asOptInt v).isSome
  else if key = "budget" then (asOptFloat v).isSome
  else if key = "amenities" then (asOptStrList v).isSome
  else (asOptStr v).isSome

/-- Schema validation of a `Constraints` input dict: each declared field is
read (defaulting to `None`) and checked against its declared type; fields not
declared on the model are ignored. `none` is a validation error. -/
def Constraints.validate (input : PyDict) : Option Constraints := do
  let departure_port ← asOptStr (getField input "departure_port")
  let date_range ← asOptStr (getField input "date_range")
  let duration ← asOptInt (getField input "duration")
  let budget ← asOptFloat (getField input "budget")
  let cabin_type ← asOptStr (getField input "cabin_type")
  let traveler_type ← asOptStr (getField input "traveler_type")
  let destination ← asOptStr (getField input "destination")
  let amenities ← asOptStrList (getField input "amenities")
  let atmosphere ← asOptStr (getField input "atmosphere")
  pure ⟨departure_port, date_range, duration, budget, cabin_type,
        traveler_type, destination, amenities, atmosphere⟩

/-! ## Code-based evaluation functions (evals/eval_code_based) -/

/-- A parsed SQL statement as `evaluate_sql_syntax` inspects one: its list of
tokens. -/
abbrev SqlStatement := List String

/-- The type of the external `sqlparse.parse` call: a token-list per
statement, or a raised exception. -/
abbrev SqlParse := String → Except String (List SqlStatement)

/-- Query extraction of `evaluate_sql_syntax`: a `sql_queries` string is split
on commas, stripped, and blank entries dropped; a `sql_queries` list keeps the
stripped rendering of its truthy elements; a lone `sql_query` is kept when
truthy; any other shape yields no queries. -/
def extractSqlQueries (output : PyDict) : List String :=
  match output.lookup "sql_queries" with
  | some (.pystr s) =>
    ((pySplitComma s).map pyStrip).filter (fun q => q ≠ "")
  | some (.pylist l) =>
    (l.filter PyVal.truthy).map (fun q => pyStrip q.render)
  | some _ => []
  | none =>
    match output.lookup "sql_query" with
    | some v => if v.truthy then [pyStrip v.render] else []
    | none => []

/-- The validation loop of `evaluate_sql_syntax`: a blank query is skipped;
otherwise the query must parse without an exception into a non-empty
statement list whose first statement has tokens. -/
def sqlQueriesValid (parse : SqlParse) : List String → Bool
  | [] => true
  | q :: rest =>
    if q = "" then sqlQueriesValid parse rest
    else
      match parse q with
      | .error _ => false
      | .ok [] => false
      | .ok (stmt :: _) =>
        if stmt.isEmpty then false else sqlQueriesValid parse rest

/-- `evaluate_sql_syntax` from sql_syntax.py. `parse_available` is whether the
`sqlparse` import succeeded; `input` is the test-case dict (unused, as in the
source); `output` is `None` or a result dict. -/
def evaluate_sql_syntax (parse : SqlParse) (parse_available : Bool)
    (input : PyDict) (output : Option PyDict) : Rat :=
  match output with
  | none => 0
  | some out =>
    if ¬ parse_available then 0
    else
      let sql_queries := extractSqlQueries out
      if sql_queries.isEmpty then 0
      else if sqlQueriesValid parse sql_queries then 1 else 0

/-- A value that is either a comma-separated string or a list of strings, the
two shapes `evaluate_tool_usage_check` handles for its tool fields. -/
inductive StrOrList where
  | str (s : String) : StrOrList
  | list (l : List String) : StrOrList
deriving Repr, DecidableEq

/-- Split a comma-separated string into stripped, non-blank entries. -/
def splitTools (s : String) : List String :=
  ((pySplitComma s).map pyStrip).filter (fun t => t ≠ "")

/-- Expected-tool extraction of `evaluate_tool_usage_check`: a list keeps the
stripped non-blank entries; a string is split on commas and stripped with
blanks dropped; a missing field reads as the empty string. -/
def expectedToolSet (expected_tool_calls : Option StrOrList) : Finset String :=
  match expected_tool_calls with
  | some (.list l) => ((l.map pyStrip).filter (fun t => t ≠ "")).toFinset
  | some (.str s) => (splitTools s).toFinset
  | none => ∅

/-- Actual-tool extraction of `evaluate_tool_usage_check`: a string is split
on commas, stripped, blanks dropped; a list is taken as is; a missing field
reads as the empty list. -/
def actualToolSet (tools_used : Option StrOrList) : Finset String :=
  match tools_used with
  | some (.str s) => (splitTools s).toFinset
  | some (.list l) => l.toFinset
  | none => ∅

/-- The scoring rule of `evaluate_tool_usage_check` once both tool sets are
extracted. -/
def toolScore (expected_tools actual_tools : Finset String) : Rat :=
  if expected_tools = ∅ then
    if actual_tools = ∅ then 1 else 0
  else if actual_tools = ∅ then 0
  else ((expected_tools ∩ actual_tools).card : Rat) / (expected_tools.card : Rat)

/-- `evaluate_tool_usage_check` from tool_usage.py. `input` is the test-case
dict (unused, as in the source); `output` is `None` or carries the
`tools_used` field; `expected` carries `expected_tool_calls`. -/
def evaluate_tool_usage_check (input : PyDict)
    (output : Option (Option StrOrList))
    (expected_tool_calls : Option StrOrList) : Rat :=
  match output with
  | none => 0
  | some tools_used =>
    toolScore (expectedToolSet expected_tool_calls) (actualToolSet tools_used)

/-! ## Program state and the stateless tool layer

The tool functions read two backing stores and a configuration but write
nothing. To state that, the observable program state is made explicit and
each tool is given a state-passing signature whose state component comes
straight out of the embedding of its body. -/

/-- Modelled from the spec: the `DataSearch` class is not under src (only its
callers are); per the spec the data tools are stateless query/filter/format
functions over an embedded analytical query engine, so each `DataSearch`
method the tools call is a pure function of the loaded rows and its
arguments. -/
structure DataSearchEngine where
  execute_sql_query : List Cruise → String → List Cruise
  get_cruise_by_id : List Cruise → String → Option Cruise
  get_pricing : List Cruise → String → Option PyDict
  search_by_price_range : List Cruise → Rat → Rat → Nat → List Cruise
  get_all_cruises : List Cruise → Option Nat → List Cruise
  get_stats : List Cruise → PyDict

/-- The type of the vector database engine: a pure query function of the
stored documents. -/
abbrev VectorEngine :=
  List (String × String) → CollectionQuery

/-- The observable program state the tool layer can reach: the loaded cruise
rows, the vector-store documents, and the configuration environment. -/
structure ProgState where
  cruise_rows : List Cruise
  vector_docs : List (String × String)
  config_env : List (String × String)

/-- `search_cruises` with its state made explicit: the body only reads the
loaded rows through the engine and returns the state it was given. -/
def search_cruises_st (ds : DataSearchEngine) (s : ProgState)
    (sql_query : String) : ProgState × List Cruise :=
  (s, search_cruises (ds.execute_sql_query s.cruise_rows) sql_query)

/-- `get_cruise_by_id` with its state made explicit: the body only reads the
loaded rows through the engine. -/
def get_cruise_by_id_st (ds : DataSearchEngine) (s : ProgState)
    (cruise_id : Option String) (cruise_ids : Option (List String)) :
    ProgState × CruiseResult :=
  (s, get_cruise_by_id (ds.get_cruise_by_id s.cruise_rows) cruise_id
        cruise_ids)

/-- `get_pricing_info` from data_search_tools.py with its state made
explicit: it forwards `cruise_id` to `DataSearch.get_pricing`; `cabin_type`
is accepted but unused, as in the source. -/
def get_pricing_info_st (ds : DataSearchEngine) (s : ProgState)
    (cruise_id : String) (cabin_type : Option String) :
    ProgState × Option PyDict :=
  (s, ds.get_pricing s.cruise_rows cruise_id)

/-- `search_by_price_range` from data_search_tools.py with its state made
explicit: a pass-through to `DataSearch.search_by_price_range`. -/
def search_by_price_range_st (ds : DataSearchEngine) (s : ProgState)
    (min_price max_price : Rat) (lim : Nat) : ProgState × List Cruise :=
  (s, ds.search_by_price_range s.cruise_rows min_price max_price lim)

/-- `get_all_cruises` from data_search_tools.py with its state made explicit:
a pass-through to `DataSearch.get_all_cruises`. -/
def get_all_cruises_st (ds : DataSearchEngine) (s : ProgState)
    (lim : Option Nat) : ProgState × List Cruise :=
  (s, ds.get_all_cruises s.cruise_rows lim)

/-- `get_data_stats` from data_search_tools.py with its state made explicit:
a pass-through to `DataSearch.get_stats`. -/
def get_data_stats_st (ds : DataSearchEngine) (s : ProgState) :
    ProgState × PyDict :=
  (s, ds.get_stats s.cruise_rows)

/-- `semantic_search_cruises` with its state made explicit: the body only
reads the vector documents through the engines and returns the state it was
given. -/
def semantic_search_cruises_st (embed_text : String → Except String (List Rat))
    (vengine : VectorEngine) (s : ProgState) (query : String) (n_results : Nat)
    (filters : Option Filters) : ProgState × List SearchHit :=
  (s, semantic_search_cruises embed_text (vengine s.vector_docs) query
        n_results filters)

/-- The `find_similar` attribute of `SemanticSearch`: semantic_search.py
defines `embed_text`, `search` and `search_by_preference` and no method named
`find_similar`, so the attribute lookup finds nothing. -/
def SemanticSearch.find_similar : Option (String → Nat → List SearchHit) :=
  none

/-- `find_similar_cruises` from semantic_search_tools.py: the body is
`_semantic_search.find_similar(cruise_id, top_k=top_k)`; Python first
resolves the attribute `find_similar` on the instance, and a failed lookup is
a raised `AttributeError`, so the call raises before touching any state. -/
def find_similar_cruises (cruise_id : String) (top_k : Nat) :
    Except String (List SearchHit) :=
  match SemanticSearch.find_similar with
  | some f => .ok (f cruise_id top_k)
  | none => .error "AttributeError"

/-- `find_similar_cruises` with its state made explicit: the raised
`AttributeError` happens before any state is touched. -/
def find_similar_cruises_st (s : ProgState) (cruise_id : String)
    (top_k : Nat) : ProgState × Except String (List SearchHit) :=
  (s, find_similar_cruises cruise_id top_k)

/-- A state-passing tool call is a stateless read: it returns the state it
was given, and a second identical call from that returned state produces the
same value. -/
def StatelessCall {α : Type} (call : ProgState → ProgState × α)
    (s : ProgState) : Prop :=
  (call s).1 = s ∧ (call ((call s).1)).2 = (call s).2

/-! ## Theorems -/

/-- C1: when Phoenix is not configured (`PHOENIX_ENABLED` is false, or the
initialization raised so no real tracer was produced), the configured tracer
is the no-op tracer and its `tool`, `chain`, `agent` and `llm` decorators all
return the decorated function itself, so every decorated tool computes
exactly what its undecorated body computes. -/
theorem noop_tracer_decorators_identity (endpoint : String)
    (api_key : Option String) (phoenix_init : Option Tracer)
    (f : PyVal → PyVal)
    (h : PHOENIX_ENABLED endpoint api_key = false ∨ phoenix_init = none) :
    (config_tracer (PHOENIX_ENABLED endpoint api_key) phoenix_init).tool f = f
    ∧ (config_tracer (PHOENIX_ENABLED endpoint api_key) phoenix_init).chain f = f
    ∧ (config_tracer (PHOENIX_ENABLED endpoint api_key) phoenix_init).agent f = f
    ∧ (config_tracer (PHOENIX_ENABLED endpoint api_key) phoenix_init).llm f = f := by
  rcases h with h | h
  · rw [h]
    exact ⟨rfl, rfl, rfl, rfl⟩
  · rw [h]
    cases PHOENIX_ENABLED endpoint api_key <;> exact ⟨rfl, rfl, rfl, rfl⟩

/-- Witness for C1: with the default cloud endpoint, no API key and no real
tracer, each decorator is the identity on a concrete function. -/
theorem noop_tracer_decorators_identity_witness :
    (config_tracer (PHOENIX_ENABLED "https://app.phoenix.arize.com" none)
        none).tool id = id
    ∧ (config_tracer (PHOENIX_ENABLED "https://app.phoenix.arize.com" none)
        none).chain id = id
    ∧ (config_tracer (PHOENIX_ENABLED "https://app.phoenix.arize.com" none)
        none).agent id = id
    ∧ (config_tracer (PHOENIX_ENABLED "https://app.phoenix.arize.com" none)
        none).llm id = id :=
  noop_tracer_decorators_identity "https://app.phoenix.arize.com" none none id
    (Or.inr rfl)

/-- C5: `search_cruises` is a pure pass-through: for every backend and every
SQL string it returns exactly `DataSearch.execute_sql_query` applied to that
string, with no rewriting of the query and no reshaping of the rows. -/
theorem search_cruises_pass_through
    (execute_sql_query : String → List Cruise) (sql_query : String) :
    search_cruises execute_sql_query sql_query =
      execute_sql_query sql_query := rfl

/-- C8: a non-empty `cruise_ids` takes precedence and yields the list of
cruises found for those ids with missing ids skipped (never longer than
`cruise_ids`, and every entry an actual cruise the backend returned); an
empty `cruise_ids` behaves exactly as if it were not given; and with both
arguments absent the result is `None`. -/
theorem get_cruise_by_id_spec (backend : String → Option Cruise)
    (cruise_id : Option String) (ids : List String) (h : ids ≠ []) :
    (get_cruise_by_id backend cruise_id (some ids) =
        .listRes (foundCruises backend ids)
      ∧ (foundCruises backend ids).length ≤ ids.length
      ∧ ∀ c ∈ foundCruises backend ids, ∃ cid ∈ ids, backend cid = some c)
    ∧ get_cruise_by_id backend cruise_id (some []) =
        get_cruise_by_id backend cruise_id none
    ∧ get_cruise_by_id backend none none = .noneRes := by
  refine ⟨⟨?_, ?_, ?_⟩, rfl, rfl⟩
  · simp [get_cruise_by_id, List.isEmpty_iff, h]
  · exact List.length_filterMap_le _ _
  · intro c hc
    rcases List.mem_filterMap.mp hc with ⟨cid, hcid, hf⟩
    refine ⟨cid, hcid, ?_⟩
    cases hb : backend cid with
    | none => rw [hb] at hf; exact absurd hf (by simp)
    | some c0 =>
      rw [hb] at hf
      by_cases he : c0.isEmpty <;> simp [he] at hf
      subst hf
      rfl

/-- Witness for C8: with a backend that finds no cruise and the singleton id
list, the result is the empty list result, and the degenerate cases agree. -/
theorem get_cruise_by_id_spec_witness :
    (get_cruise_by_id (fun _ => none) none (some ["a"]) =
        .listRes (foundCruises (fun _ => none) ["a"])
      ∧ (foundCruises (fun _ => none) ["a"]).length ≤
          (["a"] : List String).length
      ∧ ∀ c ∈ foundCruises (fun _ => none) ["a"],
          ∃ cid ∈ (["a"] : List String),
            (fun _ => (none : Option Cruise)) cid = some c)
    ∧ get_cruise_by_id (fun _ => none) none (some []) =
        get_cruise_by_id (fun _ => none) none none
    ∧ get_cruise_by_id (fun _ => none) none none = .noneRes :=
  get_cruise_by_id_spec (fun _ => none) none ["a"] (by decide)

/-- C4: calling `semantic_search_cruises` with an empty filter dict returns
the same result as calling it with filters omitted, and in both cases the
normalization applied on the way to the vector store produces `None`, never
an empty dict. -/
theorem empty_filters_normalized_to_none
    (embed_text : String → Except String (List Rat))
    (collection_query : CollectionQuery) (query : String) (n_results : Nat) :
    semantic_search_cruises embed_text collection_query query n_results
        (some [])
      = semantic_search_cruises embed_text collection_query query n_results
          none
    ∧ whereClauseOf (whereClauseOf (some [])) = none
    ∧ whereClauseOf (whereClauseOf (none : Option Filters)) = none :=
  ⟨rfl, rfl, rfl⟩

/-- C6: every data-retrieval and semantic-search tool leaves the program
state unchanged, and for seven of the eight tools two consecutive calls with
identical arguments against the same backing stores return identical
results. The eighth, `find_similar_cruises`, leaves the state unchanged but
never returns a result at all: semantic_search.py defines no `find_similar`
method, so every call raises `AttributeError` — the code contradicting its
own docstring, which promises a list of similar cruises. -/
theorem tool_layer_stateless (ds : DataSearchEngine)
    (embed_text : String → Except String (List Rat)) (vengine : VectorEngine)
    (s : ProgState) (sql_query query cid : String)
    (cruise_id : Option String) (cruise_ids : Option (List String))
    (cabin_type : Option String) (min_price max_price : Rat) (lim : Nat)
    (lim2 : Option Nat) (n_results : Nat) (filters : Option Filters)
    (top_k : Nat) :
    StatelessCall (fun t => search_cruises_st ds t sql_query) s
    ∧ StatelessCall (fun t => get_cruise_by_id_st ds t cruise_id cruise_ids) s
    ∧ StatelessCall (fun t => get_pricing_info_st ds t cid cabin_type) s
    ∧ StatelessCall
        (fun t => search_by_price_range_st ds t min_price max_price lim) s
    ∧ StatelessCall (fun t => get_all_cruises_st ds t lim2) s
    ∧ StatelessCall (fun t => get_data_stats_st ds t) s
    ∧ StatelessCall
        (fun t => semantic_search_cruises_st embed_text vengine t query
          n_results filters) s
    ∧ StatelessCall (fun t => find_similar_cruises_st t cid top_k) s
    ∧ find_similar_cruises cid top_k = .error "AttributeError" :=
  ⟨⟨rfl, rfl⟩, ⟨rfl, rfl⟩, ⟨rfl, rfl⟩, ⟨rfl, rfl⟩, ⟨rfl, rfl⟩, ⟨rfl, rfl⟩,
    ⟨rfl, rfl⟩, ⟨rfl, rfl⟩, rfl⟩

/-- C2: if the embedding step or the vector-store query raises,
`SemanticSearch.search` catches the exception and returns the empty list
instead of propagating it, and `VectorStore.search` returns the empty result
dictionary (empty ids, documents, metadatas and distances) instead of
raising. -/
theorem search_swallows_backend_errors :
    (∀ (embed_text : String → Except String (List Rat))
        (collection_query : CollectionQuery) (query : String) (n_results : Nat)
        (filters : Option Filters) (e : String),
      (embed_text query = .error e ∨
        collection_query [query] n_results (whereClauseOf filters) = .error e) →
      SemanticSearch.search embed_text collection_query query n_results
        filters = [])
    ∧ ∀ (collection_query : CollectionQuery) (query_texts : List String)
        (n_results : Nat) (whereClause : Option Filters) (e : String),
      collection_query query_texts n_results whereClause = .error e →
      VectorStore.search collection_query query_texts n_results whereClause =
        emptyQueryResult := by
  constructor
  · intro embed_text collection_query query n_results filters e h
    rcases h with h | h
    · simp [SemanticSearch.search, h]
    · cases hEmb : embed_text query with
      | error e2 => simp [SemanticSearch.search, hEmb]
      | ok emb =>
        simp [SemanticSearch.search, hEmb, VectorStore.search, h,
          emptyQueryResult, formatResults]
  · intro collection_query query_texts n_results whereClause e h
    simp [VectorStore.search, h]

/-- Witness for C2: with backends that always raise, the semantic search
returns the empty list and the vector-store search the empty dictionary. -/
theorem search_swallows_backend_errors_witness :
    SemanticSearch.search (fun _ => .error "down")
        (fun _ _ _ => .error "down") "spa cruise" 5 none = []
    ∧ VectorStore.search (fun _ _ _ => .error "down") ["spa cruise"] 5 none =
        emptyQueryResult :=
  ⟨search_swallows_backend_errors.1 (fun _ => .error "down")
      (fun _ _ _ => .error "down") "spa cruise" 5 none "down" (Or.inl rfl),
    search_swallows_backend_errors.2 (fun _ _ _ => .error "down")
      ["spa cruise"] 5 none "down" rfl⟩

/-- C3: on the success path, `SemanticSearch.search` first embeds the query
text, then forwards `[query]`, `n_results` and the normalized `where` clause
to the vector database's native query call, and returns that call's results
after per-row formatting. -/
theorem search_embeds_then_queries
    (embed_text : String → Except String (List Rat))
    (collection_query : CollectionQuery) (query : String) (n_results : Nat)
    (filters : Option Filters) (emb : List Rat) (results : QueryResult)
    (formatted : List SearchHit)
    (hEmb : embed_text query = .ok emb)
    (hQuery : collection_query [query] n_results (whereClauseOf filters) =
      .ok results)
    (hFormat : formatResults results = some formatted) :
    SemanticSearch.search embed_text collection_query query n_results
      filters = formatted := by
  simp [SemanticSearch.search, hEmb, VectorStore.search, hQuery, hFormat]

/-- Witness for C3: a one-row backend result is forwarded and formatted. -/
theorem search_embeds_then_queries_witness :
    SemanticSearch.search (fun _ => .ok [1])
        (fun _ _ _ => .ok ⟨[["c1"]], [["doc1"]], [[[]]], [[0]]⟩)
        "romantic cruise" 3 none
      = [⟨"c1", "doc1", [], 0⟩] :=
  search_embeds_then_queries (fun _ => .ok [1])
    (fun _ _ _ => .ok ⟨[["c1"]], [["doc1"]], [[[]]], [[0]]⟩)
    "romantic cruise" 3 none [1] ⟨[["c1"]], [["doc1"]], [[[]]], [[0]]⟩
    [⟨"c1", "doc1", [], 0⟩] rfl rfl rfl

/-- C9: `evaluate_sql_syntax` only ever returns 0 or 1, and in particular
returns 0 when the output is `None`, when the parser library is unavailable,
and when no SQL query is found in the output. -/
theorem sql_syntax_binary :
    (∀ (parse : SqlParse) (parse_available : Bool) (input : PyDict)
        (output : Option PyDict),
      evaluate_sql_syntax parse parse_available input output = 0 ∨
        evaluate_sql_syntax parse parse_available input output = 1)
    ∧ (∀ (parse : SqlParse) (parse_available : Bool) (input : PyDict),
        evaluate_sql_syntax parse parse_available input none = 0)
    ∧ (∀ (parse : SqlParse) (input : PyDict) (output : Option PyDict),
        evaluate_sql_syntax parse false input output = 0)
    ∧ (∀ (parse : SqlParse) (parse_available : Bool) (input out : PyDict),
        extractSqlQueries out = [] →
        evaluate_sql_syntax parse parse_available input (some out) = 0) := by
  refine ⟨?_, ?_, ?_, ?_⟩
  · intro parse parse_available input output
    cases output with
    | none => exact Or.inl rfl
    | some out =>
      simp only [ evaluate_sql_syntax]
      split_ifs <;> simp
  · intro parse parse_available input
    rfl
  · intro parse input output
    cases output with
    | none => rfl
    | some out => simp [ evaluate_sql_syntax]
  · intro parse parse_available input out h
    simp [ evaluate_sql_syntax, h]

/-- Witness for C9: a dict with no SQL field scores 0. -/
theorem sql_syntax_binary_witness :
    evaluate_sql_syntax (fun _ => .ok [["SELECT"]]) true [] (some []) = 0 :=
  sql_syntax_binary.2.2.2 (fun _ => .ok [["SELECT"]]) true [] [] rfl

/-- Bounds of the scoring rule: it always lies in the unit interval. -/
theorem toolScore_mem_unit (E A : Finset String) :
    0 ≤ toolScore E A ∧ toolScore E A ≤ 1 := by
  unfold toolScore
  split_ifs with h1 h2 h3
  · norm_num
  · norm_num
  · norm_num
  · have hpos : 0 < (E.card : Rat) := by
      have hc : 0 < E.card :=
        Finset.card_pos.mpr (Finset.nonempty_iff_ne_empty.mpr h1)
      exact_mod_cast hc
    constructor
    · positivity
    · rw [div_le_one hpos]
      exact_mod_cast Finset.card_le_card Finset.inter_subset_left

/-- C10: `evaluate_tool_usage_check` always returns a score in [0, 1]; with
an empty expected tool set it returns 1 exactly when no tools were used; with
both sets non-empty it is the intersection size over the expected size; and,
the expected set being non-empty, adding an unexpected tool never lowers the
score (and leaves it unchanged once some tool was already used). -/
theorem tool_usage_score_spec :
    (∀ (input : PyDict) (output : Option (Option StrOrList))
        (expected_tool_calls : Option StrOrList),
      0 ≤ evaluate_tool_usage_check input output expected_tool_calls ∧
        evaluate_tool_usage_check input output expected_tool_calls ≤ 1)
    ∧ (∀ (input : PyDict)
        (tools_used expected_tool_calls : Option StrOrList),
        expectedToolSet expected_tool_calls = ∅ →
        (evaluate_tool_usage_check input (some tools_used)
            expected_tool_calls = 1 ↔
          actualToolSet tools_used = ∅))
    ∧ (∀ (input : PyDict)
        (tools_used expected_tool_calls : Option StrOrList),
        expectedToolSet expected_tool_calls ≠ ∅ →
        actualToolSet tools_used ≠ ∅ →
        evaluate_tool_usage_check input (some tools_used)
            expected_tool_calls =
          ((expectedToolSet expected_tool_calls ∩
              actualToolSet tools_used).card : Rat) /
            ((expectedToolSet expected_tool_calls).card : Rat))
    ∧ (∀ (E A : Finset String) (t : String), E ≠ ∅ → t ∉ E →
        toolScore E A ≤ toolScore E (insert t A))
    ∧ (∀ (E A : Finset String) (t : String), E ≠ ∅ → A ≠ ∅ → t ∉ E →
        toolScore E (insert t A) = toolScore E A) := by
  refine ⟨?_, ?_, ?_, ?_, ?_⟩
  · intro input output expected_tool_calls
    cases output with
    | none => norm_num [evaluate_tool_usage_check]
    | some tools_used => exact toolScore_mem_unit _ _
  · intro input tools_used expected_tool_calls h
    by_cases h2 : actualToolSet tools_used = ∅
    · simp [evaluate_tool_usage_check, toolScore, h, h2]
    · norm_num [evaluate_tool_usage_check, toolScore, h, h2]
  · intro input tools_used expected_tool_calls h1 h2
    simp [evaluate_tool_usage_check, toolScore, h1, h2]
  · intro E A t hE ht
    have hins : insert t A ≠ ∅ := Finset.insert_ne_empty t A
    by_cases hA : A = ∅
    · subst hA
      have h0 : toolScore E ∅ = 0 := by simp [toolScore, hE]
      rw [h0]
      exact (toolScore_mem_unit E (insert t ∅)).1
    · simp [toolScore, hE, hA, hins, Finset.inter_insert_of_not_mem ht]
  · intro E A t hE hA ht
    have hins : insert t A ≠ ∅ := Finset.insert_ne_empty t A
    simp [toolScore, hE, hA, hins, Finset.inter_insert_of_not_mem ht]

/-- Witness for C10: concrete scores for empty and overlapping tool sets. -/
theorem tool_usage_score_spec_witness :
    (evaluate_tool_usage_check [] (some none) none = 1 ↔
      actualToolSet none = ∅)
    ∧ evaluate_tool_usage_check [] (some (some (.list ["a"])))
        (some (.str "a,b")) =
        ((expectedToolSet (some (.str "a,b")) ∩
            actualToolSet (some (.list ["a"]))).card : Rat) /
          ((expectedToolSet (some (.str "a,b"))).card : Rat)
    ∧ toolScore {"a"} ∅ ≤ toolScore {"a"} (insert "c" ∅)
    ∧ toolScore {"a"} (insert "c" {"a"}) = toolScore {"a"} {"a"} :=
  ⟨tool_usage_score_spec.2.1 [] none none (by decide),
    tool_usage_score_spec.2.2.1 [] (some (.list ["a"])) (some (.str "a,b"))
      (by decide) (by decide),
    tool_usage_score_spec.2.2.2.1 {"a"} ∅ "c" (by decide) (by decide),
    tool_usage_score_spec.2.2.2.2 {"a"} {"a"} "c" (by decide) (by decide)
      (by decide)⟩

/-- A supplied `None` is accepted by every field of the model. -/
theorem constraintFieldOk_pynone (key : String) :
    constraintFieldOk key .pynone = true := by
  unfold constraintFieldOk
  split_ifs <;> rfl

/-- A field check through `getField` fails exactly when the field was supplied
with an ill-typed value. -/
theorem constraintFieldOk_getField_iff (input : PyDict) (key : String) :
    constraintFieldOk key (getField input key) = false ↔
      ∃ v, input.lookup key = some v ∧ constraintFieldOk key v = false := by
  constructor
  · intro h
    cases hl : input.lookup key with
    | none =>
      have hg : getField input key = .pynone := by simp [getField, hl]
      rw [hg, constraintFieldOk_pynone] at h
      simp at h
    | some v =>
      have hgv : getField input key = v := by simp [getField, hl]
      exact ⟨v, rfl, by rwa [hgv] at h⟩
  · rintro ⟨v, hl, hbad⟩
    have hgv : getField input key = v := by simp [getField, hl]
    rw [hgv]
    exact hbad

/-- `Constraints.validate` fails exactly when one of the nine per-field
parses fails. -/
theorem validate_eq_none_iff (input : PyDict) :
    Constraints.validate input = none ↔
      asOptStr (getField input "departure_port") = none
      ∨ asOptStr (getField input "date_range") = none
      ∨ asOptInt (getField input "duration") = none
      ∨ asOptFloat (getField input "budget") = none
      ∨ asOptStr (getField input "cabin_type") = none
      ∨ asOptStr (getField input "traveler_type") = none
      ∨ asOptStr (getField input "destination") = none
      ∨ asOptStrList (getField input "amenities") = none
      ∨ asOptStr (getField input "atmosphere") = none := by
  cases h1 : asOptStr (getField input "departure_port") with
  | none => simp [Constraints.validate, h1]
  | some x1 =>
  cases h2 : asOptStr (getField input "date_range") with
  | none => simp [Constraints.validate, h1, h2]
  | some x2 =>
  cases h3 : asOptInt (getField input "duration") with
  | none => simp [Constraints.validate, h1, h2, h3]
  | some x3 =>
  cases h4 : asOptFloat (getField input "budget") with
  | none => simp [Constraints.validate, h1, h2, h3, h4]
  | some x4 =>
  cases h5 : asOptStr (getField input "cabin_type") with
  | none => simp [Constraints.validate, h1, h2, h3, h4, h5]
  | some x5 =>
  cases h6 : asOptStr (getField input "traveler_type") with
  | none => simp [Constraints.validate, h1, h2, h3, h4, h5, h6]
  | some x6 =>
  cases h7 : asOptStr (getField input "destination") with
  | none => simp [Constraints.validate, h1, h2, h3, h4, h5, h6, h7]
  | some x7 =>
  cases h8 : asOptStrList (getField input "amenities") with
  | none => simp [Constraints.validate, h1, h2, h3, h4, h5, h6, h7, h8]
  | some x8 =>
  cases h9 : asOptStr (getField input "atmosphere") with
  | none => simp [Constraints.validate, h1, h2, h3, h4, h5, h6, h7, h8, h9]
  | some x9 => simp [Constraints.validate, h1, h2, h3, h4, h5, h6, h7, h8, h9]

/-- C7: every field of `Constraints` is optional: validation accepts the
record with all nine fields absent, each defaulting to `None`, and rejects an
input exactly when some supplied field carries an ill-typed value. -/
theorem constraints_optional_typing :
    Constraints.validate [] =
      some ⟨none, none, none, none, none, none, none, none, none⟩
    ∧ ∀ input : PyDict,
        (Constraints.validate input = none ↔
          ∃ key ∈ constraintFieldNames, ∃ v,
            input.lookup key = some v ∧ constraintFieldOk key v = false) := by
  refine ⟨rfl, fun input => ?_⟩
  rw [validate_eq_none_iff]
  constructor
  · intro h
    rcases h with h | h | h | h | h | h | h | h | h
    · exact ⟨"departure_port", by simp [constraintFieldNames],
        (constraintFieldOk_getField_iff input "departure_port").mp
          (by simp [constraintFieldOk, h])⟩
    · exact ⟨"date_range", by simp [constraintFieldNames],
        (constraintFieldOk_getField_iff input "date_range").mp
          (by simp [constraintFieldOk, h])⟩
    · exact ⟨"duration", by simp [constraintFieldNames],
        (constraintFieldOk_getField_iff input "duration").mp
          (by simp [constraintFieldOk, h])⟩
    · exact ⟨"budget", by simp [constraintFieldNames],
        (constraintFieldOk_getField_iff input "budget").mp
          (by simp [constraintFieldOk, h])⟩
    · exact ⟨"cabin_type", by simp [constraintFieldNames],
        (constraintFieldOk_getField_iff input "cabin_type").mp
          (by simp [constraintFieldOk, h])⟩
    · exact ⟨"traveler_type", by simp [constraintFieldNames],
        (constraintFieldOk_getField_iff input "traveler_type").mp
          (by simp [constraintFieldOk, h])⟩
    · exact ⟨"destination", by simp [constraintFieldNames],
        (constraintFieldOk_getField_iff input "destination").mp
          (by simp [constraintFieldOk, h])⟩
    · exact ⟨"amenities", by simp [constraintFieldNames],
        (constraintFieldOk_getField_iff input "amenities").mp
          (by simp [constraintFieldOk, h])⟩
    · exact ⟨"atmosphere", by simp [constraintFieldNames],
        (constraintFieldOk_getField_iff input "atmosphere").mp
          (by simp [constraintFieldOk, h])⟩
  · rintro ⟨key, hkey, v, hl, hbad⟩
    have hok : constraintFieldOk key (getField input key) = false :=
      (constraintFieldOk_getField_iff input key).mpr ⟨v, hl, hbad⟩
    simp only [constraintFieldNames, List.mem_cons, List.not_mem_nil,
      or_false] at hkey
    rcases hkey with rfl | rfl | rfl | rfl | rfl | rfl | rfl | rfl | rfl
    · exact Or.inl (by simpa [constraintFieldOk] using hok)
    · exact Or.inr (Or.inl (by simpa [constraintFieldOk] using hok))
    · exact Or.inr (Or.inr (Or.inl (by simpa [constraintFieldOk] using hok)))
    · exact Or.inr (Or.inr (Or.inr (Or.inl
        (by simpa [constraintFieldOk] using hok))))
    · exact Or.inr (Or.inr (Or.inr (Or.inr (Or.inl
        (by simpa [constraintFieldOk] using hok)))))
    · exact Or.inr (Or.inr (Or.inr (Or.inr (Or.inr (Or.inl
        (by simpa [constraintFieldOk] using hok))))))
    · exact Or.inr (Or.inr (Or.inr (Or.inr (Or.inr (Or.inr (Or.inl
        (by simpa [constraintFieldOk] using hok)))))))
    · exact Or.inr (Or.inr (Or.inr (Or.inr (Or.inr (Or.inr (Or.inr (Or.inl
        (by simpa [constraintFieldOk] using hok))))))))
    · exact Or.inr (Or.inr (Or.inr (Or.inr (Or.inr (Or.inr (Or.inr (Or.inr
        (by simpa [constraintFieldOk] using hok))))))))

end CruiseBooking
